import Mathlib

/-!
Verification of the Nature Remo Home Assistant integration
(`custom_components/nature_remo`): a shallow embedding of the API client
(`__init__.py`, class NatureRemoAPI), the update coordinator wiring
(`async_setup_entry` / `async_update_data`), the sensor platform
(`sensor.py`) and the config flow (`config_flow.py`), together with
theorems about the claims of the specification.

JSON values are modelled by the inductive `Json` below; Python dicts with
string keys are association lists (`PyDict`) with Python's insertion
semantics (updating an existing key keeps its position, a new key is
appended).  Python code that can raise is modelled in `Except PyErr`.

Modelling notes kept throughout the file:
* ids returned by the Nature Remo API are JSON strings, so dictionaries
  keyed by an element's `id` field are keyed by `String`; an element whose
  `id` is not a string maps to a `typeError` in the model (such data never
  occurs in the claims, which all concern string ids).
* numbers are rationals, which covers every numeric literal in the spec
  (e.g. 21.5, 60, 450).
-/

/-- A JSON value: null, booleans, (rational) numbers, strings, arrays and
objects.  Objects keep their entries in order, like Python dicts. -/
inductive Json where
  | null : Json
  | bool (b : Bool) : Json
  | num (q : ℚ) : Json
  | str (s : String) : Json
  | arr (elements : List Json) : Json
  | obj (entries : List (String × Json)) : Json
deriving Repr

/-- A Python exception, as far as the modelled code can observe it. -/
inductive PyErr where
  | keyError (key : String)
  | stopIteration
  | typeError
  | attributeError
  | httpStatus (code : Nat)
  | network
deriving DecidableEq, Repr

/-- A Python dict with string keys, in insertion order. -/
abbrev PyDict := List (String × Json)

/-- First-match lookup in an association list.  Since `dictInsert` keeps
keys unique, this is Python dict lookup. -/
def dictLookup : PyDict → String → Option Json
  | [], _ => none
  | (k, v) :: rest, key => if k = key then some v else dictLookup rest key

/-- Python dict insertion: an existing key is updated in place (keeping
its position), a new key is appended at the end. -/
def dictInsert : PyDict → String → Json → PyDict
  | [], key, v => [(key, v)]
  | (k, w) :: rest, key, v =>
      if k = key then (k, v) :: rest else (k, w) :: dictInsert rest key v

/-- Values of a Python dict, in insertion order (`d.values()`). -/
def dictValues (d : PyDict) : List Json := d.map Prod.snd

/-- Optional field access on a JSON value: `some v` when the value is an
object with the key, `none` otherwise. -/
def jGet? : Json → String → Option Json
  | .obj entries, key => dictLookup entries key
  | _, _ => none

/-- Python subscripting `j[key]`: raises `KeyError` when the object lacks
the key and `TypeError` when `j` is not a dict. -/
def pyGetItem (j : Json) (key : String) : Except PyErr Json :=
  match j with
  | .obj entries =>
      match dictLookup entries key with
      | some v => .ok v
      | none => .error (.keyError key)
  | _ => .error .typeError

/-- Python subscripting into a dict value (`d[key]` on a `PyDict`). -/
def pyDictGetItem (d : PyDict) (key : String) : Except PyErr Json :=
  match dictLookup d key with
  | some v => .ok v
  | none => .error (.keyError key)

/-- Whether an `Except` carries a success value. -/
def exceptIsOk {ε α : Type} : Except ε α → Bool
  | .ok _ => true
  | .error _ => false

/-- The `{x["id"]: x for x in elements}` comprehension of
`NatureRemoAPI.get`, with the accumulated dict made explicit: each
element is inserted under its `id` field, left to right, so a duplicate
id is overwritten by the later element.  An element without an `id`
raises `KeyError`, as in Python; a non-string id is a `typeError` in the
model (see the modelling notes). -/
def buildByIdAux (acc : PyDict) : List Json → Except PyErr PyDict
  | [] => .ok acc
  | x :: xs =>
      match jGet? x "id" with
      | some (.str s) => buildByIdAux (dictInsert acc s x) xs
      | some _ => .error .typeError
      | none =>
          match x with
          | .obj _ => .error (.keyError "id")
          | _ => .error .typeError

/-- Conversion of a JSON array into a mapping keyed by each element's
`id` field (from `NatureRemoAPI.get`). -/
def buildById (elements : List Json) : Except PyErr PyDict :=
  buildByIdAux [] elements

/-- The value returned by `NatureRemoAPI.get`:
`{"appliances": ..., "devices": ...}`. -/
structure Snapshot where
  appliances : PyDict
  devices : PyDict
deriving Repr

/-- The body of `NatureRemoAPI.get` (src `__init__.py`, lines 225-255).
The two HTTP requests are modelled by their outcomes: `.ok elements` for
a 2xx response whose JSON body parsed to an array, `.error e` for a
non-2xx status (`raise_for_status`) or a transport failure.  The
appliances request runs first and any exception it raises propagates
(the `try`/`except` blocks log and re-raise); only then runs the devices
request; on success both arrays are keyed by id. -/
def NatureRemoAPI.get (appliancesResult devicesResult : Except PyErr (List Json)) :
    Except PyErr Snapshot := do
  let appliancesData ← appliancesResult
  let appliances ← buildById appliancesData
  let devicesData ← devicesResult
  let devices ← buildById devicesData
  return { appliances := appliances, devices := devices }

/-- The coordinator's stored data: `none` before the first successful
refresh, `some snapshot` afterwards. -/
structure CoordinatorState where
  data : Option Snapshot
deriving Repr

/-- The `async_update_data` callback of `async_setup_entry` (src
`__init__.py`, lines 60-69): returns the fetched data on success and
re-raises the fetch error on failure (the `except` block only logs). -/
def async_update_data (fetchResult : Except PyErr Snapshot) : Except PyErr Snapshot :=
  match fetchResult with
  | .ok data => .ok data
  | .error err => .error err

/-- Modelled from the spec: the host framework's `DataUpdateCoordinator`
(not part of this repository) calls the update method on each refresh; on
success it atomically replaces the stored snapshot with the new payload,
and on failure it records the failure and leaves the stored snapshot
untouched, so consumers keep reading the last good snapshot. -/
def coordinatorRefresh (st : CoordinatorState) (fetchResult : Except PyErr Snapshot) :
    CoordinatorState :=
  match async_update_data fetchResult with
  | .ok data => { data := some data }
  | .error _ => st

/-- A sequence of refresh calls, given the outcome of each call's fetch. -/
def refreshAll (st : CoordinatorState) (fetches : List (Except PyErr Snapshot)) :
    CoordinatorState :=
  fetches.foldl coordinatorRefresh st

/-- The payload of the most recent successful fetch in a sequence of
fetch outcomes, if any. -/
def lastSuccessfulPayload : List (Except PyErr Snapshot) → Option Snapshot
  | [] => none
  | f :: fs =>
      match lastSuccessfulPayload fs with
      | some d => some d
      | none =>
          match f with
          | .ok d => some d
          | .error _ => none

/-- C1.  After any sequence of refresh calls (in particular any
alternation of fetch successes and failures), the coordinator's stored
snapshot equals the payload of the most recent successful fetch (or the
initial state when no fetch has succeeded); and a refresh whose fetch
fails re-raises that very error out of the update method. -/
theorem coordinator_keeps_last_successful_snapshot
    (st : CoordinatorState) (fetches : List (Except PyErr Snapshot)) :
    (refreshAll st fetches).data =
      (match lastSuccessfulPayload fetches with
        | some d => some d
        | none => st.data) ∧
    (∀ e : PyErr, async_update_data (Except.error e) = Except.error e) := by
  constructor
  · induction fetches generalizing st with
    | nil => rfl
    | cons f fs ih =>
        have hstep : refreshAll st (f :: fs) = refreshAll (coordinatorRefresh st f) fs := rfl
        rw [hstep, ih]
        cases hlast : lastSuccessfulPayload fs with
        | some d => simp [lastSuccessfulPayload, hlast]
        | none =>
            cases f with
            | ok d => simp [lastSuccessfulPayload, hlast, coordinatorRefresh, async_update_data]
            | error e => simp [lastSuccessfulPayload, hlast, coordinatorRefresh, async_update_data]
  · intro e
    rfl

/-- Python equality of a JSON value with an integer literal (as in
`value["epc"] == 231`): true for the equal number (and for Python bools,
which compare as 0/1), false for any other value, never raising. -/
def pyEqNum (j : Json) (n : ℚ) : Bool :=
  match j with
  | .num q => decide (q = n)
  | .bool b => decide ((if b then (1 : ℚ) else 0) = n)
  | _ => false

/-- Python equality of a JSON value with a string literal (as in
`appliance["type"] == "EL_SMART_METER"`). -/
def pyEqStr (j : Json) (s : String) : Bool :=
  match j with
  | .str t => decide (t = s)
  | _ => false

/-- The generator expression of `NatureRemoE.state`:
`next(value["val"] for value in echonetlite_properties if value["epc"] == 231)`.
Each element's `epc` is read (a missing key raises `KeyError`), compared
with 231; for the first match its `val` is read and returned; an
exhausted generator makes `next` raise `StopIteration`. -/
def findEpc231 : List Json → Except PyErr Json
  | [] => .error .stopIteration
  | p :: rest => do
      let epc ← pyGetItem p "epc"
      if pyEqNum epc 231 then pyGetItem p "val" else findEpc231 rest

/-- The iteration source of the generator: iterating a JSON array yields
its elements.  Anything the claims exercise here is an array; the model
maps other values to `typeError`. -/
def pyIter (j : Json) : Except PyErr (List Json) :=
  match j with
  | .arr elements => .ok elements
  | _ => .error .typeError

/-- The `state` property of `NatureRemoE` (src `sensor.py`, lines 64-80):
`coordinator.data["appliances"][appliance_id]`, then `["smart_meter"]`,
then `["echonetlite_properties"]`, then the epc-231 search. -/
def NatureRemoE.state (snapshot : Snapshot) (applianceId : String) : Except PyErr Json := do
  let appliance ← pyDictGetItem snapshot.appliances applianceId
  let smartMeter ← pyGetItem appliance "smart_meter"
  let props ← pyGetItem smartMeter "echonetlite_properties"
  let propList ← pyIter props
  findEpc231 propList

/-- The `state` property of `NatureRemoTemperatureSensor` (src
`sensor.py`, lines 123-131): `coordinator.data["devices"][device_id]`,
then `["newest_events"]["te"]["val"]`. -/
def NatureRemoTemperatureSensor.state (snapshot : Snapshot) (deviceId : String) :
    Except PyErr Json := do
  let device ← pyDictGetItem snapshot.devices deviceId
  let events ← pyGetItem device "newest_events"
  let event ← pyGetItem events "te"
  pyGetItem event "val"

/-- The `state` property of `NatureRemoHumiditySensor` (src `sensor.py`,
lines 157-165): `["newest_events"]["hu"]["val"]`. -/
def NatureRemoHumiditySensor.state (snapshot : Snapshot) (deviceId : String) :
    Except PyErr Json := do
  let device ← pyDictGetItem snapshot.devices deviceId
  let events ← pyGetItem device "newest_events"
  let event ← pyGetItem events "hu"
  pyGetItem event "val"

/-- The `state` property of `NatureRemoIlluminanceSensor` (src
`sensor.py`, lines 191-199): `["newest_events"]["il"]["val"]`. -/
def NatureRemoIlluminanceSensor.state (snapshot : Snapshot) (deviceId : String) :
    Except PyErr Json := do
  let device ← pyDictGetItem snapshot.devices deviceId
  let events ← pyGetItem device "newest_events"
  let event ← pyGetItem events "il"
  pyGetItem event "val"

/-- Binding a successful `Except` runs the continuation. -/
theorem exceptBindOk {α β ε : Type} (x : α) (f : α → Except ε β) :
    (Except.ok x : Except ε α) >>= f = f x := rfl

/-- Binding a failed `Except` propagates the error. -/
theorem exceptBindError {α β ε : Type} (e : ε) (f : α → Except ε β) :
    (Except.error e : Except ε α) >>= f = Except.error e := rfl

/-- Purity in the `Except` monad is `Except.ok`. -/
theorem exceptPureOk {α ε : Type} (x : α) : (pure x : Except ε α) = Except.ok x := rfl

/-- Subscripting succeeds exactly on present fields. -/
theorem pyGetItem_of_jGet {j : Json} {key : String} {v : Json}
    (h : jGet? j key = some v) : pyGetItem j key = .ok v := by
  cases j with
  | obj entries => simp only [jGet?] at h; simp [pyGetItem, h]
  | null => simp [jGet?] at h
  | bool b => simp [jGet?] at h
  | num q => simp [jGet?] at h
  | str s => simp [jGet?] at h
  | arr elements => simp [jGet?] at h

/-- Subscripting an object that lacks the key raises `KeyError`. -/
theorem pyGetItem_obj_missing {j : Json} {key : String}
    (hobj : ∃ entries, j = Json.obj entries) (h : jGet? j key = none) :
    pyGetItem j key = .error (.keyError key) := by
  obtain ⟨entries, rfl⟩ := hobj
  simp only [jGet?] at h
  simp [pyGetItem, h]

/-- Whether a property entry has an `epc` field that is not 231 (so the
generator of `NatureRemoE.state` inspects it and skips it without
raising). -/
def epcPresentNot231 (q : Json) : Bool :=
  match jGet? q "epc" with
  | some e => !pyEqNum e 231
  | none => false

/-- The epc-231 search skips one entry whose `epc` is not 231. -/
theorem findEpc231_skip (q : Json) (rest : List Json) (e : Json)
    (hq : jGet? q "epc" = some e) (hne : pyEqNum e 231 = false) :
    findEpc231 (q :: rest) = findEpc231 rest := by
  simp [findEpc231, pyGetItem_of_jGet hq, exceptBindOk, hne]

/-- The epc-231 search returns the `val` of the first entry whose `epc`
is 231. -/
theorem findEpc231_found (p : Json) (rest : List Json) (e v : Json)
    (hepc : jGet? p "epc" = some e) (h231 : pyEqNum e 231 = true)
    (hval : jGet? p "val" = some v) :
    findEpc231 (p :: rest) = .ok v := by
  simp [findEpc231, pyGetItem_of_jGet hepc, exceptBindOk, h231, pyGetItem_of_jGet hval]

/-- The epc-231 search skips any prefix of entries whose `epc` fields
are present and differ from 231. -/
theorem findEpc231_after_misses (pre : List Json) (tail : List Json)
    (hpre : pre.all epcPresentNot231 = true) :
    findEpc231 (pre ++ tail) = findEpc231 tail := by
  induction pre with
  | nil => rfl
  | cons q qs ih =>
      rw [List.all_cons, Bool.and_eq_true] at hpre
      obtain ⟨hq, hqs⟩ := hpre
      unfold epcPresentNot231 at hq
      cases hqe : jGet? q "epc" with
      | none => rw [hqe] at hq; simp at hq
      | some e =>
          rw [hqe] at hq
          simp only [Bool.not_eq_true'] at hq
          rw [List.cons_append, findEpc231_skip q _ e hqe hq, ih hqs]

/-- C5.  Whenever the energy entity's appliance is present in the
snapshot with a smart-meter property list in which the first entry
carrying code (epc) 231 has value field `v` (all earlier entries carry
some other code), the entity's state is exactly `v`. -/
theorem energy_state_reads_epc231_val
    (snapshot : Snapshot) (applianceId : String)
    (appliance smartMeter e v p : Json) (pre rest : List Json)
    (happ : pyDictGetItem snapshot.appliances applianceId = Except.ok appliance)
    (hsm : pyGetItem appliance "smart_meter" = Except.ok smartMeter)
    (hprops : pyGetItem smartMeter "echonetlite_properties" =
      Except.ok (Json.arr (pre ++ p :: rest)))
    (hpre : pre.all epcPresentNot231 = true)
    (hepc : jGet? p "epc" = some e) (h231 : pyEqNum e 231 = true)
    (hval : jGet? p "val" = some v) :
    NatureRemoE.state snapshot applianceId = Except.ok v := by
  simp [NatureRemoE.state, happ, hsm, hprops, exceptBindOk, pyIter,
        findEpc231_after_misses pre (p :: rest) hpre,
        findEpc231_found p rest e v hepc h231 hval]

/-- The spec's example property list `[{epc:225,val:10},{epc:231,val:450}]`. -/
def exampleProps : List Json :=
  [Json.obj [("epc", Json.num 225), ("val", Json.num 10)],
   Json.obj [("epc", Json.num 231), ("val", Json.num 450)]]

/-- A smart-meter appliance holding the example property list. -/
def exampleMeterAppliance : Json :=
  Json.obj
    [("id", Json.str "meter1"),
     ("nickname", Json.str "Smart meter"),
     ("type", Json.str "EL_SMART_METER"),
     ("device", Json.obj [("id", Json.str "dev1")]),
     ("smart_meter", Json.obj [("echonetlite_properties", Json.arr exampleProps)])]

/-- A device whose newest events are the spec's example
`{te:{val:21.5}, hu:{val:60}}` (no `il` key). -/
def exampleDevice : Json :=
  Json.obj
    [("id", Json.str "dev1"),
     ("name", Json.str "Remo"),
     ("serial_number", Json.str "SN1"),
     ("firmware_version", Json.str "FW1"),
     ("newest_events",
       Json.obj [("te", Json.obj [("val", Json.num 21.5)]),
                 ("hu", Json.obj [("val", Json.num 60)])])]

/-- A snapshot holding the example appliance and device. -/
def exampleSnapshot : Snapshot :=
  { appliances := [("meter1", exampleMeterAppliance)],
    devices := [("dev1", exampleDevice)] }

/-- Witness for C5: on the spec's example list the entity reports 450. -/
theorem energy_state_reads_epc231_val_witness :
    NatureRemoE.state exampleSnapshot "meter1" = Except.ok (Json.num 450) :=
  energy_state_reads_epc231_val exampleSnapshot "meter1" exampleMeterAppliance
    (Json.obj [("echonetlite_properties", Json.arr exampleProps)])
    (Json.num 231) (Json.num 450)
    (Json.obj [("epc", Json.num 231), ("val", Json.num 450)])
    [Json.obj [("epc", Json.num 225), ("val", Json.num 10)]] []
    rfl rfl rfl (by decide) rfl (by decide) rfl

/-- C6.  Whenever an entity's device is present in the snapshot and its
`newest_events` contains the entity's kind key with a `val` field, the
entity's state equals that `val`: this holds for the temperature (`te`),
humidity (`hu`) and illuminance (`il`) entities. -/
theorem device_sensor_state_reads_newest_event_val
    (snapshot : Snapshot) (deviceId : String) (device events : Json)
    (hdev : pyDictGetItem snapshot.devices deviceId = Except.ok device)
    (hev : pyGetItem device "newest_events" = Except.ok events) :
    (∀ event v, jGet? events "te" = some event → jGet? event "val" = some v →
      NatureRemoTemperatureSensor.state snapshot deviceId = Except.ok v) ∧
    (∀ event v, jGet? events "hu" = some event → jGet? event "val" = some v →
      NatureRemoHumiditySensor.state snapshot deviceId = Except.ok v) ∧
    (∀ event v, jGet? events "il" = some event → jGet? event "val" = some v →
      NatureRemoIlluminanceSensor.state snapshot deviceId = Except.ok v) := by
  refine ⟨fun event v h1 h2 => ?_, fun event v h1 h2 => ?_, fun event v h1 h2 => ?_⟩
  · simp [NatureRemoTemperatureSensor.state, hdev, hev, exceptBindOk,
          pyGetItem_of_jGet h1, pyGetItem_of_jGet h2]
  · simp [NatureRemoHumiditySensor.state, hdev, hev, exceptBindOk,
          pyGetItem_of_jGet h1, pyGetItem_of_jGet h2]
  · simp [NatureRemoIlluminanceSensor.state, hdev, hev, exceptBindOk,
          pyGetItem_of_jGet h1, pyGetItem_of_jGet h2]

/-- Witness for C6: on the spec's example events
`{te:{val:21.5}, hu:{val:60}}` the temperature entity reports 21.5 and
the humidity entity reports 60. -/
theorem device_sensor_state_reads_newest_event_val_witness :
    NatureRemoTemperatureSensor.state exampleSnapshot "dev1" = Except.ok (Json.num 21.5) ∧
    NatureRemoHumiditySensor.state exampleSnapshot "dev1" = Except.ok (Json.num 60) :=
  ⟨(device_sensor_state_reads_newest_event_val exampleSnapshot "dev1" exampleDevice
      (Json.obj [("te", Json.obj [("val", Json.num 21.5)]),
                 ("hu", Json.obj [("val", Json.num 60)])]) rfl rfl).1
    (Json.obj [("val", Json.num 21.5)]) (Json.num 21.5) rfl rfl,
   (device_sensor_state_reads_newest_event_val exampleSnapshot "dev1" exampleDevice
      (Json.obj [("te", Json.obj [("val", Json.num 21.5)]),
                 ("hu", Json.obj [("val", Json.num 60)])]) rfl rfl).2.1
    (Json.obj [("val", Json.num 60)]) (Json.num 60) rfl rfl⟩

/-- An appliance (an air conditioner) without a `smart_meter` block. -/
def exampleAirconAppliance : Json :=
  Json.obj
    [("id", Json.str "ac1"),
     ("nickname", Json.str "Living AC"),
     ("type", Json.str "AC"),
     ("device", Json.obj [("id", Json.str "dev1")])]

/-- A snapshot whose only appliance lacks the `smart_meter` block. -/
def exampleSnapshotNoMeter : Snapshot :=
  { appliances := [("ac1", exampleAirconAppliance)],
    devices := [("dev1", exampleDevice)] }

/-- Counterexample for C2 as stated: on a snapshot whose device has no
`il` entry in `newest_events`, the illuminance entity's state getter
raises `KeyError` instead of reporting the value as unavailable. -/
theorem illuminance_missing_key_raises_counterexample :
    NatureRemoIlluminanceSensor.state exampleSnapshot "dev1" =
      Except.error (PyErr.keyError "il") := rfl

/-- C2 amended.  Reading a derived entity's state when an expected field
is absent raises a Python exception rather than reporting the value as
unavailable: a missing `smart_meter` block raises `KeyError`, a property
list without an epc-231 entry makes `next` raise `StopIteration`, and a
missing `newest_events` kind key raises `KeyError`. -/
theorem missing_snapshot_fields_raise_exceptions :
    (∀ (snapshot : Snapshot) (applianceId : String) (appliance : Json),
      pyDictGetItem snapshot.appliances applianceId = Except.ok appliance →
      (∃ entries, appliance = Json.obj entries) →
      jGet? appliance "smart_meter" = none →
      NatureRemoE.state snapshot applianceId = Except.error (PyErr.keyError "smart_meter")) ∧
    (∀ props : List Json, props.all epcPresentNot231 = true →
      findEpc231 props = Except.error PyErr.stopIteration) ∧
    (∀ (snapshot : Snapshot) (deviceId : String) (device events : Json),
      pyDictGetItem snapshot.devices deviceId = Except.ok device →
      pyGetItem device "newest_events" = Except.ok events →
      (∃ entries, events = Json.obj entries) →
      jGet? events "il" = none →
      NatureRemoIlluminanceSensor.state snapshot deviceId =
        Except.error (PyErr.keyError "il")) := by
  refine ⟨fun snapshot applianceId appliance happ hobj hnone => ?_,
          fun props hall => ?_,
          fun snapshot deviceId device events hdev hev hobj hnone => ?_⟩
  · simp [NatureRemoE.state, happ, exceptBindOk,
          pyGetItem_obj_missing hobj hnone, exceptBindError]
  · have h := findEpc231_after_misses props [] hall
    rw [List.append_nil] at h
    rw [h]
    rfl
  · simp [NatureRemoIlluminanceSensor.state, hdev, hev, exceptBindOk,
          pyGetItem_obj_missing hobj hnone, exceptBindError]

/-- Witness for the amended C2, at concrete snapshots: an appliance
without `smart_meter`, a property list without code 231, and a device
without an `il` event. -/
theorem missing_snapshot_fields_raise_exceptions_witness :
    NatureRemoE.state exampleSnapshotNoMeter "ac1" =
      Except.error (PyErr.keyError "smart_meter") ∧
    findEpc231 [Json.obj [("epc", Json.num 225), ("val", Json.num 10)]] =
      Except.error PyErr.stopIteration ∧
    NatureRemoIlluminanceSensor.state
      { appliances := [], devices := [("dev2", Json.obj [("id", Json.str "dev2"),
          ("newest_events", Json.obj [("hu", Json.obj [("val", Json.num 60)])])])] }
      "dev2" = Except.error (PyErr.keyError "il") :=
  ⟨missing_snapshot_fields_raise_exceptions.1 exampleSnapshotNoMeter "ac1"
      exampleAirconAppliance rfl ⟨_, rfl⟩ rfl,
   missing_snapshot_fields_raise_exceptions.2.1
      [Json.obj [("epc", Json.num 225), ("val", Json.num 10)]] (by decide),
   missing_snapshot_fields_raise_exceptions.2.2
      { appliances := [], devices := [("dev2", Json.obj [("id", Json.str "dev2"),
          ("newest_events", Json.obj [("hu", Json.obj [("val", Json.num 60)])])])] }
      "dev2" (Json.obj [("id", Json.str "dev2"),
          ("newest_events", Json.obj [("hu", Json.obj [("val", Json.num 60)])])])
      (Json.obj [("hu", Json.obj [("val", Json.num 60)])]) rfl rfl ⟨_, rfl⟩ rfl⟩

/-- C3.  If either of the two GET requests of `NatureRemoAPI.get` fails
(non-2xx status or transport error), the whole operation raises: it never
returns a snapshot built from only one half. -/
theorem api_get_all_or_nothing
    (appliancesResult devicesResult : Except PyErr (List Json))
    (hfail : exceptIsOk appliancesResult = false ∨ exceptIsOk devicesResult = false) :
    exceptIsOk (NatureRemoAPI.get appliancesResult devicesResult) = false := by
  cases appliancesResult with
  | error e => rfl
  | ok as =>
      cases hb : buildById as with
      | error e =>
          simp [NatureRemoAPI.get, exceptBindOk, hb, exceptBindError, exceptIsOk]
      | ok m =>
          cases devicesResult with
          | error e =>
              simp [NatureRemoAPI.get, exceptBindOk, hb, exceptBindError, exceptIsOk]
          | ok ds => simp [exceptIsOk] at hfail

/-- Witness for C3: a transport failure of the appliances request makes
the whole fetch fail even though the devices request would succeed. -/
theorem api_get_all_or_nothing_witness :
    exceptIsOk (NatureRemoAPI.get (Except.error PyErr.network)
      (Except.ok [exampleDevice])) = false :=
  api_get_all_or_nothing (Except.error PyErr.network) (Except.ok [exampleDevice])
    (Or.inl rfl)

/-- Whether a JSON element's `id` field is the string `key` (the search
predicate used to state which array element a dict entry came from). -/
def hasId (key : String) (x : Json) : Bool :=
  match jGet? x "id" with
  | some (Json.str s) => decide (s = key)
  | _ => false

/-- The last element of a JSON array whose `id` field is `key`, if any. -/
def lastById (elements : List Json) (key : String) : Option Json :=
  elements.reverse.find? (hasId key)

/-- Unfolding `lastById` over a cons cell: later elements win. -/
theorem lastById_cons (x : Json) (xs : List Json) (key : String) :
    lastById (x :: xs) key =
      (lastById xs key).or (if hasId key x then some x else none) := by
  simp only [lastById, List.reverse_cons, List.find?_append, List.find?_cons,
    List.find?_nil]
  cases hasId key x <;> simp

/-- Lookup in a dict after a Python insertion. -/
theorem dictLookup_dictInsert (m : PyDict) (k key : String) (v : Json) :
    dictLookup (dictInsert m k v) key = if k = key then some v else dictLookup m key := by
  induction m with
  | nil => simp [dictInsert, dictLookup]
  | cons kv rest ih =>
      obtain ⟨k', w⟩ := kv
      simp only [dictInsert]
      by_cases hk : k' = k
      · subst hk
        by_cases hkey : k' = key
        · subst hkey; simp [dictLookup]
        · simp [dictLookup, hkey]
      · simp only [if_neg hk]
        by_cases hkey : k' = key
        · subst hkey
          have hk2 : ¬k = k' := fun h => hk h.symm
          simp [dictLookup, hk2]
        · simp [dictLookup, hkey, ih]

/-- The id-keyed dict built by the `{x["id"]: x for x in elements}`
comprehension maps each key to the last array element with that id,
falling back to the starting dict for ids that never occur. -/
theorem buildByIdAux_lookup (xs : List Json) :
    ∀ acc m : PyDict, buildByIdAux acc xs = Except.ok m →
      ∀ key, dictLookup m key = (lastById xs key).or (dictLookup acc key) := by
  induction xs with
  | nil =>
      intro acc m h key
      simp only [buildByIdAux] at h
      injection h with h
      subst h
      simp [lastById, List.find?_nil, Option.none_or]
  | cons x xs ih =>
      intro acc m h key
      cases hid : jGet? x "id" with
      | none =>
          simp only [buildByIdAux, hid] at h
          cases x <;> simp at h
      | some v =>
          cases v with
          | str s =>
              simp only [buildByIdAux, hid] at h
              have h2 := ih (dictInsert acc s x) m h key
              rw [h2, lastById_cons]
              have hx : hasId key x = decide (s = key) := by simp [hasId, hid]
              cases hlast : lastById xs key with
              | some w => simp [Option.or_some]
              | none =>
                  rw [Option.none_or, Option.none_or, hx, dictLookup_dictInsert]
                  by_cases hs : s = key
                  · simp [hs]
                  · simp [hs]
          | null => simp only [buildByIdAux, hid] at h; simp at h
          | bool b => simp only [buildByIdAux, hid] at h; simp at h
          | num q => simp only [buildByIdAux, hid] at h; simp at h
          | arr l => simp only [buildByIdAux, hid] at h; simp at h
          | obj o => simp only [buildByIdAux, hid] at h; simp at h

/-- C4.  A successful fetch returns the two mappings that contain
exactly the elements of the corresponding arrays keyed by their `id`
field; when two elements share an id, the last occurrence in the array
wins.  (The `Option`-valued equality covers both directions: a key is
present in the mapping exactly when some array element has that id.) -/
theorem api_get_keys_by_id_last_wins
    (appliancesData devicesData : List Json) (snap : Snapshot)
    (h : NatureRemoAPI.get (Except.ok appliancesData) (Except.ok devicesData) =
      Except.ok snap) :
    (∀ key, dictLookup snap.appliances key = lastById appliancesData key) ∧
    (∀ key, dictLookup snap.devices key = lastById devicesData key) := by
  have hbind : NatureRemoAPI.get (Except.ok appliancesData) (Except.ok devicesData) =
      (buildById appliancesData >>= fun a =>
        buildById devicesData >>= fun d =>
          Except.ok { appliances := a, devices := d }) := rfl
  rw [hbind] at h
  cases hA : buildById appliancesData with
  | error e => rw [hA, exceptBindError] at h; cases h
  | ok a =>
      rw [hA, exceptBindOk] at h
      cases hD : buildById devicesData with
      | error e => rw [hD, exceptBindError] at h; cases h
      | ok d =>
          rw [hD, exceptBindOk] at h
          injection h with h
          subst h
          constructor
          · intro key
            have := buildByIdAux_lookup appliancesData [] a hA key
            simpa [dictLookup, Option.or_none] using this
          · intro key
            have := buildByIdAux_lookup devicesData [] d hD key
            simpa [dictLookup, Option.or_none] using this

/-- An appliance with id `x1` (earlier duplicate). -/
def exampleApplianceX : Json :=
  Json.obj [("id", Json.str "x1"), ("nickname", Json.str "X first")]

/-- An appliance with id `y1`. -/
def exampleApplianceY : Json :=
  Json.obj [("id", Json.str "y1"), ("nickname", Json.str "Y")]

/-- A second appliance with id `x1` (later duplicate, which must win). -/
def exampleApplianceX2 : Json :=
  Json.obj [("id", Json.str "x1"), ("nickname", Json.str "X second")]

/-- Witness for C4: with two appliance ids (one duplicated) and one
device, the fetch succeeds, each lookup matches the last array element
with that id, the duplicated id resolves to the later occurrence, and an
id that never occurs is absent. -/
theorem api_get_keys_by_id_last_wins_witness :
    NatureRemoAPI.get
      (Except.ok [exampleApplianceX, exampleApplianceY, exampleApplianceX2])
      (Except.ok [exampleDevice]) =
      Except.ok { appliances := [("x1", exampleApplianceX2), ("y1", exampleApplianceY)],
                  devices := [("dev1", exampleDevice)] } ∧
    dictLookup [("x1", exampleApplianceX2), ("y1", exampleApplianceY)] "x1" =
      lastById [exampleApplianceX, exampleApplianceY, exampleApplianceX2] "x1" ∧
    lastById [exampleApplianceX, exampleApplianceY, exampleApplianceX2] "x1" =
      some exampleApplianceX2 ∧
    dictLookup [("x1", exampleApplianceX2), ("y1", exampleApplianceY)] "absent" =
      lastById [exampleApplianceX, exampleApplianceY, exampleApplianceX2] "absent" ∧
    dictLookup [("dev1", exampleDevice)] "dev1" = lastById [exampleDevice] "dev1" :=
  ⟨rfl,
   (api_get_keys_by_id_last_wins
      [exampleApplianceX, exampleApplianceY, exampleApplianceX2] [exampleDevice]
      { appliances := [("x1", exampleApplianceX2), ("y1", exampleApplianceY)],
        devices := [("dev1", exampleDevice)] } rfl).1 "x1",
   rfl,
   (api_get_keys_by_id_last_wins
      [exampleApplianceX, exampleApplianceY, exampleApplianceX2] [exampleDevice]
      { appliances := [("x1", exampleApplianceX2), ("y1", exampleApplianceY)],
        devices := [("dev1", exampleDevice)] } rfl).1 "absent",
   (api_get_keys_by_id_last_wins
      [exampleApplianceX, exampleApplianceY, exampleApplianceX2] [exampleDevice]
      { appliances := [("x1", exampleApplianceX2), ("y1", exampleApplianceY)],
        devices := [("dev1", exampleDevice)] } rfl).2 "dev1"⟩

/-- An exception escaping the config flow's validation step: the
integration's own `InvalidAuth` (which the source raises with
`raise InvalidAuth from err`, so it wraps its cause), or any other
exception. -/
inductive FlowException where
  | invalidAuth (cause : PyErr)
  | other (err : PyErr)
deriving DecidableEq, Repr

/-- The body of `NatureRemoConfigFlow._validate_token` (src
`config_flow.py`, lines 216-226): calls `api.get()`, and wraps any
exception that raises — authentication or transport alike — in
`InvalidAuth`; a fetch that succeeds validates the token. -/
def validate_token (fetchResult : Except PyErr Snapshot) : Except FlowException Unit :=
  match fetchResult with
  | .ok _ => .ok ()
  | .error err => .error (.invalidAuth err)

/-- The outcome of submitting the user step's form. -/
inductive StepUserResult where
  | createEntry (accessToken : String) (updateInterval : Nat)
  | showFormWithError (errorBase : String)
deriving DecidableEq, Repr

/-- The submission path of `async_step_user` (src `config_flow.py`,
lines 98-130, no prior entries configured): the token is validated and
on success an entry with the submitted token and interval is created; on
`InvalidAuth` the form is shown again with `errors["base"] =
"invalid_auth"`, and on any other exception with `"unknown"`. -/
def async_step_user_submit (accessToken : String) (updateInterval : Nat)
    (fetchResult : Except PyErr Snapshot) : StepUserResult :=
  match validate_token fetchResult with
  | .ok () => .createEntry accessToken updateInterval
  | .error (.invalidAuth _) => .showFormWithError "invalid_auth"
  | .error (.other _) => .showFormWithError "unknown"

/-- Counterexample for C7 as stated: a network (transport) failure of
the validation fetch is reported as `invalid_auth`, not as the generic
`unknown` error — non-auth fetch failures are not distinguishable from
auth failures. -/
theorem network_error_reported_as_invalid_auth_counterexample :
    async_step_user_submit "token" 60 (Except.error PyErr.network) =
      StepUserResult.showFormWithError "invalid_auth" ∧
    async_step_user_submit "token" 60 (Except.error PyErr.network) ≠
      StepUserResult.showFormWithError "unknown" :=
  ⟨rfl, by decide⟩

/-- C7 amended.  The validation step wraps every failure of the
validation fetch — auth or transport — in `InvalidAuth`, so the config
flow reports `invalid_auth` for any failing validation; the generic
`unknown` error is never produced by a validation-fetch failure.  A
successful fetch creates the entry. -/
theorem validation_failures_all_map_to_invalid_auth
    (accessToken : String) (updateInterval : Nat) :
    (∀ e : PyErr,
      validate_token (Except.error e) = Except.error (FlowException.invalidAuth e) ∧
      async_step_user_submit accessToken updateInterval (Except.error e) =
        StepUserResult.showFormWithError "invalid_auth") ∧
    (∀ snap : Snapshot,
      async_step_user_submit accessToken updateInterval (Except.ok snap) =
        StepUserResult.createEntry accessToken updateInterval) :=
  ⟨fun _ => ⟨rfl, rfl⟩, fun _ => rfl⟩

/-- The fixed allow-list of refresh intervals (src `const.py`, line 15). -/
def UPDATE_INTERVAL_OPTIONS : List Nat := [10, 15, 30, 45, 60, 90, 120]

/-- A schema validation failure (voluptuous `Invalid`). -/
inductive SchemaError where
  | notInContainer
deriving DecidableEq, Repr

/-- Modelled from the spec: the voluptuous validator `vol.In(container)`
used by the form schema — library code, not part of this repository —
accepts a value exactly when it is contained in `container`, returning
it unchanged, and raises `Invalid` otherwise. -/
def volIn (options : List Nat) (v : Nat) : Except SchemaError Nat :=
  if v ∈ options then .ok v else .error .notInContainer

/-- Validation of the `update_interval` form field (src
`config_flow.py`, line 122): `vol.In(UPDATE_INTERVAL_OPTIONS)`. -/
def validateUpdateInterval (v : Nat) : Except SchemaError Nat :=
  volIn UPDATE_INTERVAL_OPTIONS v

/-- C8.  A refresh interval outside the allow-list
{10, 15, 30, 45, 60, 90, 120} fails schema validation (so no entry, and
hence no coordinator, is built from it); and validation never clamps: a
value it accepts is returned unchanged. -/
theorem update_interval_outside_allowlist_rejected (v : Nat) :
    (v ∉ UPDATE_INTERVAL_OPTIONS →
      validateUpdateInterval v = Except.error SchemaError.notInContainer) ∧
    (∀ w, validateUpdateInterval v = Except.ok w → w = v) := by
  constructor
  · intro hv
    simp [validateUpdateInterval, volIn, hv]
  · intro w hw
    by_cases hv : v ∈ UPDATE_INTERVAL_OPTIONS
    · simp [validateUpdateInterval, volIn, hv] at hw
      exact hw.symm
    · simp [validateUpdateInterval, volIn, hv] at hw

/-- Witness for C8: the interval 42 is outside the allow-list and is
rejected by the schema. -/
theorem update_interval_outside_allowlist_rejected_witness :
    42 ∉ UPDATE_INTERVAL_OPTIONS ∧
    validateUpdateInterval 42 = Except.error SchemaError.notInContainer :=
  ⟨by decide, (update_interval_outside_allowlist_rejected 42).1 (by decide)⟩

/-- The state marker of a persisted config entry. -/
inductive ConfigEntryState where
  | loaded
  | notLoaded
  | setupError
  | migrationError
deriving DecidableEq, Repr

/-- A persisted config entry: version marker, data dict, state. -/
structure ConfigEntry where
  version : Nat
  data : PyDict
  state : ConfigEntryState
deriving Repr

/-- The body of `NatureRemoConfigFlow.async_migrate_entry` (src
`config_flow.py`, lines 34-59): a version-1 entry is updated to data
`{**entry.data, "update_interval": 60}` (60 seconds being the default
interval), version 2 and state `NOT_LOADED`, and the hook returns True;
an entry at any other version is left untouched and the hook returns
False.  (The source's `except` branch only reacts to failures of the
host's entry-update call, which the pure model cannot produce.) -/
def async_migrate_entry (entry : ConfigEntry) : ConfigEntry × Bool :=
  if entry.version = 1 then
    ({ version := 2,
       data := dictInsert entry.data "update_interval" (Json.num 60),
       state := ConfigEntryState.notLoaded }, true)
  else
    (entry, false)

/-- Inserting a key that is absent appends it at the end. -/
theorem dictInsert_of_missing (m : PyDict) (key : String) (v : Json)
    (h : dictLookup m key = none) : dictInsert m key v = m ++ [(key, v)] := by
  induction m with
  | nil => rfl
  | cons kv rest ih =>
      obtain ⟨k, w⟩ := kv
      simp only [dictLookup] at h
      by_cases hk : k = key
      · simp [hk] at h
      · simp only [dictInsert, if_neg hk, List.cons_append, List.cons.injEq, true_and]
        exact ih (by simpa [hk] using h)

/-- C9.  Migrating a version-1 entry (whose data lacks the
`update_interval` key) adds exactly that one key with the default 60
seconds — every pre-existing field, the access token included, is
unchanged — bumps the version to 2 and returns true; an entry already at
version 2 is returned unchanged with false. -/
theorem migrate_entry_v1_adds_interval_v2_noop (entry : ConfigEntry) :
    (entry.version = 1 → dictLookup entry.data "update_interval" = none →
      (async_migrate_entry entry).1.data =
        entry.data ++ [("update_interval", Json.num 60)] ∧
      (∀ key, key ≠ "update_interval" →
        dictLookup (async_migrate_entry entry).1.data key = dictLookup entry.data key) ∧
      dictLookup (async_migrate_entry entry).1.data "update_interval" =
        some (Json.num 60) ∧
      (async_migrate_entry entry).1.version = 2 ∧
      (async_migrate_entry entry).2 = true) ∧
    (entry.version = 2 → async_migrate_entry entry = (entry, false)) := by
  constructor
  · intro h1 hmiss
    have hm : async_migrate_entry entry =
        ({ version := 2,
           data := dictInsert entry.data "update_interval" (Json.num 60),
           state := ConfigEntryState.notLoaded }, true) := by
      simp [async_migrate_entry, h1]
    rw [hm]
    refine ⟨dictInsert_of_missing entry.data _ _ hmiss, ?_, ?_, rfl, rfl⟩
    · intro key hkey
      rw [dictLookup_dictInsert]
      exact if_neg fun h => hkey h.symm
    · rw [dictLookup_dictInsert]
      simp
  · intro h2
    simp [async_migrate_entry, h2]

/-- A version-1 entry holding only an access token. -/
def exampleEntryV1 : ConfigEntry :=
  { version := 1,
    data := [("access_token", Json.str "secret")],
    state := ConfigEntryState.loaded }

/-- A version-2 entry (already migrated). -/
def exampleEntryV2 : ConfigEntry :=
  { version := 2,
    data := [("access_token", Json.str "secret"), ("update_interval", Json.num 60)],
    state := ConfigEntryState.notLoaded }

/-- Witness for C9 at concrete entries: the version-1 entry gains
exactly the `update_interval` key, keeps its access token, moves to
version 2 with flag true; the version-2 entry is untouched with flag
false. -/
theorem migrate_entry_v1_adds_interval_v2_noop_witness :
    (async_migrate_entry exampleEntryV1).1.data =
      [("access_token", Json.str "secret"), ("update_interval", Json.num 60)] ∧
    dictLookup (async_migrate_entry exampleEntryV1).1.data "access_token" =
      some (Json.str "secret") ∧
    (async_migrate_entry exampleEntryV1).1.version = 2 ∧
    (async_migrate_entry exampleEntryV1).2 = true ∧
    async_migrate_entry exampleEntryV2 = (exampleEntryV2, false) :=
  ⟨((migrate_entry_v1_adds_interval_v2_noop exampleEntryV1).1 rfl rfl).1.trans rfl,
   (((migrate_entry_v1_adds_interval_v2_noop exampleEntryV1).1 rfl rfl).2.1
      "access_token" (by decide)).trans rfl,
   ((migrate_entry_v1_adds_interval_v2_noop exampleEntryV1).1 rfl rfl).2.2.2.1,
   ((migrate_entry_v1_adds_interval_v2_noop exampleEntryV1).1 rfl rfl).2.2.2.2,
   (migrate_entry_v1_adds_interval_v2_noop exampleEntryV2).2 rfl⟩

/-- A sensor entity created by the sensor platform's setup, identified
by its kind and the id of the appliance or device it binds to (the
entity's `unique_id` in the source). -/
inductive SensorEntity where
  | energy (applianceId : String)
  | temperature (deviceId : String)
  | humidity (deviceId : String)
  | illuminance (deviceId : String)
deriving DecidableEq, Repr

/-- Construction of a `NatureRemoE` entity: `NatureRemoBase.__init__`
(src `__init__.py`, lines 276-280) reads `appliance["nickname"]`,
`appliance["id"]` and `appliance["device"]`, raising `KeyError` for a
missing key; the entity is identified by the appliance id.  A non-string
id is a `typeError` in the model (see the modelling notes). -/
def natureRemoE_new (appliance : Json) : Except PyErr SensorEntity := do
  let _ ← pyGetItem appliance "nickname"
  let idJ ← pyGetItem appliance "id"
  let _ ← pyGetItem appliance "device"
  match idJ with
  | .str s => return SensorEntity.energy s
  | _ => .error .typeError

/-- Construction of a device-bound sensor:
`NatureRemoDeviceBase.__init__` (src `__init__.py`, lines 311-316) reads
`device["name"]` and `device["id"]`; the entity is identified by the
device id. -/
def natureRemoDeviceSensor_new (mk : String → SensorEntity) (device : Json) :
    Except PyErr SensorEntity := do
  let _ ← pyGetItem device "name"
  let idJ ← pyGetItem device "id"
  match idJ with
  | .str s => return (mk s)
  | _ => .error .typeError

/-- The energy-entity list comprehension of the sensor platform's
`async_setup_entry` (src `sensor.py`, lines 36-40): one `NatureRemoE`
per appliance whose `type` field equals `"EL_SMART_METER"`. -/
def buildEnergyEntities : List Json → Except PyErr (List SensorEntity)
  | [] => .ok []
  | a :: rest => do
      let t ← pyGetItem a "type"
      if pyEqStr t "EL_SMART_METER" then
        let e ← natureRemoE_new a
        let es ← buildEnergyEntities rest
        return e :: es
      else
        buildEnergyEntities rest

/-- Python `d.keys()` on a JSON value. -/
def pyDictKeys (j : Json) : Except PyErr (List String) :=
  match j with
  | .obj entries => .ok (entries.map Prod.fst)
  | _ => .error .attributeError

/-- One iteration of the inner loop of `async_setup_entry` (src
`sensor.py`, lines 44-50): the sensor appended for one key of
`device["newest_events"]`, if that key is one of `te`, `hu`, `il`. -/
def sensorForKey (device : Json) (key : String) : Except PyErr (Option SensorEntity) :=
  if key = "te" then do
    let e ← natureRemoDeviceSensor_new SensorEntity.temperature device
    return some e
  else if key = "hu" then do
    let e ← natureRemoDeviceSensor_new SensorEntity.humidity device
    return some e
  else if key = "il" then do
    let e ← natureRemoDeviceSensor_new SensorEntity.illuminance device
    return some e
  else
    return none

/-- The inner loop over the keys of one device's `newest_events`. -/
def buildDeviceSensorsFromKeys (device : Json) :
    List String → Except PyErr (List SensorEntity)
  | [] => .ok []
  | k :: ks => do
      let entity? ← sensorForKey device k
      let rest ← buildDeviceSensorsFromKeys device ks
      match entity? with
      | some e => return e :: rest
      | none => return rest

/-- The sensors created for one device (src `sensor.py`, lines 42-50):
one per matching key of `device["newest_events"]`. -/
def buildDeviceSensors (device : Json) : Except PyErr (List SensorEntity) := do
  let events ← pyGetItem device "newest_events"
  let keys ← pyDictKeys events
  buildDeviceSensorsFromKeys device keys

/-- The outer loop of `async_setup_entry` over all devices. -/
def buildDeviceEntities : List Json → Except PyErr (List SensorEntity)
  | [] => .ok []
  | d :: ds => do
      let es ← buildDeviceSensors d
      let rest ← buildDeviceEntities ds
      return es ++ rest

/-- The sensor platform's `async_setup_entry` (src `sensor.py`, lines
23-53): the energy entities built from the snapshot's appliances,
followed by the per-device sensors built from its devices. -/
def async_setup_entry_sensors (snapshot : Snapshot) :
    Except PyErr (List SensorEntity) := do
  let energy ← buildEnergyEntities (dictValues snapshot.appliances)
  let deviceEntities ← buildDeviceEntities (dictValues snapshot.devices)
  return energy ++ deviceEntities

/-- The id of an element, as a string (the claims only concern elements
whose `id` field is a present string; the default is never reached under
`snapshotWF`). -/
def idStringOf (x : Json) : String :=
  match jGet? x "id" with
  | some (Json.str s) => s
  | _ => ""

/-- Whether an appliance's `type` field equals `"EL_SMART_METER"`. -/
def isSmartMeter (a : Json) : Bool :=
  match jGet? a "type" with
  | some t => pyEqStr t "EL_SMART_METER"
  | none => false

/-- The keys of a device's `newest_events` object, in order. -/
def eventKeysOf (d : Json) : List String :=
  match jGet? d "newest_events" with
  | some (Json.obj entries) => entries.map Prod.fst
  | _ => []

/-- The set of entities the claim describes: one energy entity per
smart-meter appliance, and one temperature, humidity or illuminance
entity per device for each of the keys `te`, `hu`, `il` present in that
device's `newest_events`. -/
def claimedEntities (snapshot : Snapshot) : List SensorEntity :=
  ((dictValues snapshot.appliances).filterMap fun a =>
    if isSmartMeter a then some (SensorEntity.energy (idStringOf a)) else none)
  ++ (dictValues snapshot.devices).flatMap fun d =>
      (eventKeysOf d).filterMap fun k =>
        if k = "te" then some (SensorEntity.temperature (idStringOf d))
        else if k = "hu" then some (SensorEntity.humidity (idStringOf d))
        else if k = "il" then some (SensorEntity.illuminance (idStringOf d))
        else none

/-- Well-formedness of an appliance as the claim's universe assumes it:
a `type` field, and the identity fields the entity constructor reads
(`nickname`, a string `id`, `device`). -/
def applianceWF (a : Json) : Bool :=
  (jGet? a "type").isSome &&
  (jGet? a "nickname").isSome &&
  (match jGet? a "id" with | some (Json.str _) => true | _ => false) &&
  (jGet? a "device").isSome

/-- Well-formedness of a device: a `newest_events` object and the
identity fields the entity constructor reads (`name`, a string `id`). -/
def deviceWF (d : Json) : Bool :=
  (match jGet? d "newest_events" with | some (Json.obj _) => true | _ => false) &&
  (jGet? d "name").isSome &&
  (match jGet? d "id" with | some (Json.str _) => true | _ => false)

/-- Well-formedness of a snapshot (every appliance and device value). -/
def snapshotWF (snapshot : Snapshot) : Bool :=
  (dictValues snapshot.appliances).all applianceWF &&
  (dictValues snapshot.devices).all deviceWF

/-- A well-formed appliance's entity constructor succeeds and is keyed
by the appliance id. -/
theorem natureRemoE_new_ok (a : Json) (hwf : applianceWF a = true) :
    natureRemoE_new a = Except.ok (SensorEntity.energy (idStringOf a)) := by
  simp only [applianceWF, Bool.and_eq_true] at hwf
  obtain ⟨⟨⟨htype, hnick⟩, hid⟩, hdev⟩ := hwf
  obtain ⟨n, hn⟩ := Option.isSome_iff_exists.mp hnick
  obtain ⟨dv, hdv⟩ := Option.isSome_iff_exists.mp hdev
  cases hidm : jGet? a "id" with
  | none => rw [hidm] at hid; simp at hid
  | some v =>
      rw [hidm] at hid
      cases v with
      | str s =>
          simp [natureRemoE_new, pyGetItem_of_jGet hn, pyGetItem_of_jGet hidm,
                pyGetItem_of_jGet hdv, exceptBindOk, idStringOf, hidm]
      | null => simp at hid
      | bool b => simp at hid
      | num q => simp at hid
      | arr l => simp at hid
      | obj o => simp at hid

/-- The energy comprehension creates exactly one entity per smart-meter
appliance, in order. -/
theorem buildEnergyEntities_ok (as : List Json) (hwf : as.all applianceWF = true) :
    buildEnergyEntities as = Except.ok (as.filterMap fun a =>
      if isSmartMeter a then some (SensorEntity.energy (idStringOf a)) else none) := by
  induction as with
  | nil => rfl
  | cons a rest ih =>
      rw [List.all_cons, Bool.and_eq_true] at hwf
      obtain ⟨ha, hrest⟩ := hwf
      have htype : (jGet? a "type").isSome = true := by
        simp only [applianceWF, Bool.and_eq_true] at ha
        exact ha.1.1.1
      obtain ⟨t, ht⟩ := Option.isSome_iff_exists.mp htype
      have hsm : isSmartMeter a = pyEqStr t "EL_SMART_METER" := by
        simp [isSmartMeter, ht]
      rw [List.filterMap_cons]
      cases hx : pyEqStr t "EL_SMART_METER" with
      | true =>
          simp [buildEnergyEntities, pyGetItem_of_jGet ht, exceptBindOk, hx,
                natureRemoE_new_ok a ha, ih hrest, hsm]
      | false =>
          simp [buildEnergyEntities, pyGetItem_of_jGet ht, exceptBindOk, hx,
                ih hrest, hsm]

/-- A well-formed device has a `newest_events` object, a `name` and a
string `id` equal to `idStringOf`. -/
theorem deviceWF_parts (d : Json) (h : deviceWF d = true) :
    (∃ entries, jGet? d "newest_events" = some (Json.obj entries)) ∧
    (jGet? d "name").isSome = true ∧
    jGet? d "id" = some (Json.str (idStringOf d)) := by
  simp only [deviceWF, Bool.and_eq_true] at h
  obtain ⟨⟨hev, hname⟩, hid⟩ := h
  refine ⟨?_, hname, ?_⟩
  · cases hevm : jGet? d "newest_events" with
    | none => rw [hevm] at hev; simp at hev
    | some v =>
        rw [hevm] at hev
        cases v with
        | obj entries => exact ⟨entries, rfl⟩
        | null => simp at hev
        | bool b => simp at hev
        | num q => simp at hev
        | str s => simp at hev
        | arr l => simp at hev
  · cases hidm : jGet? d "id" with
    | none => rw [hidm] at hid; simp at hid
    | some v =>
        rw [hidm] at hid
        cases v with
        | str s => simp [idStringOf, hidm]
        | null => simp at hid
        | bool b => simp at hid
        | num q => simp at hid
        | arr l => simp at hid
        | obj o => simp at hid

/-- A well-formed device's sensor constructor succeeds and is keyed by
the device id. -/
theorem natureRemoDeviceSensor_new_ok (mk : String → SensorEntity) (d : Json)
    (hname : (jGet? d "name").isSome = true)
    (hid : jGet? d "id" = some (Json.str (idStringOf d))) :
    natureRemoDeviceSensor_new mk d = Except.ok (mk (idStringOf d)) := by
  obtain ⟨nm, hn⟩ := Option.isSome_iff_exists.mp hname
  simp [natureRemoDeviceSensor_new, pyGetItem_of_jGet hn, pyGetItem_of_jGet hid,
        exceptBindOk]

/-- The inner key loop creates exactly one sensor per `te`/`hu`/`il`
key, in key order. -/
theorem buildDeviceSensorsFromKeys_ok (d : Json)
    (hname : (jGet? d "name").isSome = true)
    (hid : jGet? d "id" = some (Json.str (idStringOf d))) (ks : List String) :
    buildDeviceSensorsFromKeys d ks = Except.ok (ks.filterMap fun k =>
      if k = "te" then some (SensorEntity.temperature (idStringOf d))
      else if k = "hu" then some (SensorEntity.humidity (idStringOf d))
      else if k = "il" then some (SensorEntity.illuminance (idStringOf d))
      else none) := by
  induction ks with
  | nil => rfl
  | cons k ks ih =>
      rw [List.filterMap_cons]
      by_cases hte : k = "te"
      · subst hte
        simp [buildDeviceSensorsFromKeys, sensorForKey,
              natureRemoDeviceSensor_new_ok _ _ hname hid, exceptBindOk,
              exceptPureOk, ih]
      · by_cases hhu : k = "hu"
        · subst hhu
          simp [buildDeviceSensorsFromKeys, sensorForKey, hte,
                natureRemoDeviceSensor_new_ok _ _ hname hid, exceptBindOk,
                exceptPureOk, ih]
        · by_cases hil : k = "il"
          · subst hil
            simp [buildDeviceSensorsFromKeys, sensorForKey, hte, hhu,
                  natureRemoDeviceSensor_new_ok _ _ hname hid, exceptBindOk,
                  exceptPureOk, ih]
          · simp [buildDeviceSensorsFromKeys, sensorForKey, hte, hhu, hil,
                  exceptBindOk, exceptPureOk, ih]

/-- The sensors created for one well-formed device are exactly those of
its event keys. -/
theorem buildDeviceSensors_ok (d : Json) (h : deviceWF d = true) :
    buildDeviceSensors d = Except.ok ((eventKeysOf d).filterMap fun k =>
      if k = "te" then some (SensorEntity.temperature (idStringOf d))
      else if k = "hu" then some (SensorEntity.humidity (idStringOf d))
      else if k = "il" then some (SensorEntity.illuminance (idStringOf d))
      else none) := by
  obtain ⟨⟨entries, hev⟩, hname, hid⟩ := deviceWF_parts d h
  have hkeys : eventKeysOf d = entries.map Prod.fst := by simp [eventKeysOf, hev]
  simp [buildDeviceSensors, pyGetItem_of_jGet hev, exceptBindOk, pyDictKeys,
        buildDeviceSensorsFromKeys_ok d hname hid, hkeys]

/-- The device loop concatenates, per device in order, the sensors of
its event keys. -/
theorem buildDeviceEntities_ok (ds : List Json) (h : ds.all deviceWF = true) :
    buildDeviceEntities ds = Except.ok (ds.flatMap fun d =>
      (eventKeysOf d).filterMap fun k =>
        if k = "te" then some (SensorEntity.temperature (idStringOf d))
        else if k = "hu" then some (SensorEntity.humidity (idStringOf d))
        else if k = "il" then some (SensorEntity.illuminance (idStringOf d))
        else none) := by
  induction ds with
  | nil => rfl
  | cons d ds ih =>
      rw [List.all_cons, Bool.and_eq_true] at h
      obtain ⟨hd, hds⟩ := h
      rw [List.flatMap_cons]
      simp [buildDeviceEntities, buildDeviceSensors_ok d hd, exceptBindOk, ih hds]

/-- C10.  For every well-formed snapshot present at sensor-platform
setup, the entities created are exactly: one energy entity per appliance
whose `type` equals `"EL_SMART_METER"`, and one temperature, humidity or
illuminance entity per device for each of the keys `te`, `hu`, `il`
present in that device's `newest_events`; a device lacking a kind key
gets no entity of that kind, and a non-smart-meter appliance gets no
energy entity. -/
theorem setup_entry_creates_exactly_claimed_entities (snapshot : Snapshot)
    (hwf : snapshotWF snapshot = true) :
    async_setup_entry_sensors snapshot = Except.ok (claimedEntities snapshot) := by
  rw [snapshotWF, Bool.and_eq_true] at hwf
  obtain ⟨ha, hd⟩ := hwf
  simp [async_setup_entry_sensors, buildEnergyEntities_ok _ ha, exceptBindOk,
        buildDeviceEntities_ok _ hd, claimedEntities]

/-- A device reporting only illuminance. -/
def exampleDeviceIl : Json :=
  Json.obj
    [("id", Json.str "dev2"),
     ("name", Json.str "Remo mini"),
     ("newest_events", Json.obj [("il", Json.obj [("val", Json.num 120)])])]

/-- A snapshot with one smart-meter and one non-smart-meter appliance,
one device reporting `te`/`hu` and one reporting only `il`. -/
def exampleSetupSnapshot : Snapshot :=
  { appliances := [("meter1", exampleMeterAppliance), ("ac1", exampleAirconAppliance)],
    devices := [("dev1", exampleDevice), ("dev2", exampleDeviceIl)] }

/-- Witness for C10 on a concrete snapshot: exactly one energy entity
(for the smart meter, not the air conditioner), temperature and humidity
entities for the first device, and only an illuminance entity for the
second. -/
theorem setup_entry_creates_exactly_claimed_entities_witness :
    snapshotWF exampleSetupSnapshot = true ∧
    async_setup_entry_sensors exampleSetupSnapshot =
      Except.ok [SensorEntity.energy "meter1",
                 SensorEntity.temperature "dev1", SensorEntity.humidity "dev1",
                 SensorEntity.illuminance "dev2"] :=
  ⟨by decide,
   (setup_entry_creates_exactly_claimed_entities exampleSetupSnapshot (by decide)).trans
     (by rfl)⟩
